import Mathlib

set_option maxRecDepth 100000

/-!
Verification of the conversation-orchestration core of the `chat_bot`
repository (Flask personality-assessment chatbot).

The definitions below are a shallow embedding of the Python modules
`app/services/chat_service.py` and `app/services/stage_service.py`:

* Flask's per-user `session` dict is modelled by `ChatBot.SessionState`
  (only the keys the orchestrator reads or writes).
* Python strings are Lean `String`s; the string operations that the code
  relies on (`strip`, `replace`, `split`, `lower`, `startswith`,
  `endswith`, substring membership) are re-implemented structurally on the
  underlying character list so that every proof can be discharged by
  kernel evaluation.
* The OpenAI client is an external effect: a turn consumes a list of
  pending provider outcomes (`some reply` for a successful completion,
  `none` for a raised provider error); the message lists actually sent to
  the provider are recorded in the `calls` field of the turn output.
* File timestamps and message timestamps come from `time.strftime`; they
  are passed in as explicit parameters (`now` for the human-readable
  format, `ts` for the compact filename format).
-/

namespace ChatBot

/-! ## Python-style string primitives (modelled on `str` semantics) -/

/-- Does the character list `l` start with the list `p`?  (Models the
prefix test used by `str.startswith` and by substring scanning.) -/
def charsStart : List Char → List Char → Bool
  | _, [] => true
  | [], _ :: _ => false
  | c :: cs, p :: ps => c == p && charsStart cs ps

/-- Split a character list on every (non-overlapping, leftmost-first)
occurrence of the non-empty separator `pat`; models `str.split(sep)` with
a non-empty separator.  `fuel` makes the recursion structural (so that
proofs can evaluate it); every occurrence consumes at least one character,
so `fuel = l.length` never runs out. -/
def splitChars (pat : List Char) : Nat → List Char → List (List Char)
  | _, [] => [[]]
  | 0, l => [l]
  | fuel + 1, c :: cs =>
    if charsStart (c :: cs) pat then
      [] :: splitChars pat fuel (cs.drop (pat.length - 1))
    else
      match splitChars pat fuel cs with
      | [] => [[c]]
      | h :: t => (c :: h) :: t

/-- `pySplit s sep`: Python `s.split(sep)` for a non-empty separator
(returns `[s]` if the separator is empty, a case the code never hits). -/
def pySplit (s sep : String) : List String :=
  match sep.data with
  | [] => [s]
  | _ :: _ => (splitChars sep.data s.data.length s.data).map String.mk

/-- `pyContains s sub`: Python `sub in s` (substring membership). -/
def pyContains (s sub : String) : Bool :=
  (pySplit s sub).length != 1

/-- `pyReplace s old new`: Python `s.replace(old, new)` — every
non-overlapping occurrence, scanned left to right. -/
def pyReplace (s old new : String) : String :=
  String.mk (List.intercalate new.data ((pySplit s old).map String.data))

/-- Whitespace test of Python `str.strip` restricted to the characters
that can actually occur here (space, tab, newline, carriage return). -/
def isStripChar (c : Char) : Bool :=
  c == ' ' || c == '\t' || c == '\n' || c == '\r'

/-- `pyStrip s`: Python `s.strip()`. -/
def pyStrip (s : String) : String :=
  String.mk (((s.data.dropWhile isStripChar).reverse.dropWhile isStripChar).reverse)

/-- `pyLower s`: Python `s.lower()` (the commands compared against are
ASCII, where `Char.toLower` agrees with Python). -/
def pyLower (s : String) : String :=
  String.mk (s.data.map Char.toLower)

/-- `pyStarts s p`: Python `s.startswith(p)`. -/
def pyStarts (s p : String) : Bool :=
  charsStart s.data p.data

/-- `pyEnds s p`: Python `s.endswith(p)`. -/
def pyEnds (s p : String) : Bool :=
  charsStart s.data.reverse p.data.reverse

/-- Python `l[-n:]`: the last `n` elements of a list. -/
def takeLast (n : Nat) (l : List α) : List α :=
  l.drop (l.length - n)

/-- Python truthiness of an optional string (`None` and `""` are falsy). -/
def truthyOpt : Option String → Bool
  | none => false
  | some s => s != ""

/-! ## Data model -/

/-- One history entry, as produced by `add_message_to_history`
(`chat_service.py:370`): a dict with `role`, `content`, `timestamp`, and —
for system turns only — a `stage` key holding `session.get('stage')`.
`stageTag = none` models both an absent key (non-system turns) and a
stored Python `None`. -/
structure Msg where
  role : String
  content : String
  timestamp : String
  stageTag : Option String := none
deriving Repr, DecidableEq

/-- One entry of the `STAGES` table in `stage_service.py:10`. -/
structure StageInfo where
  file : String
  name : String
  description : String
  next : Option String
deriving Repr, DecidableEq

/-- The stage registry `STAGES` of `stage_service.py:10-41`; `none` models
a `KeyError` / failed `in` test for an unknown id. -/
def STAGES : String → Option StageInfo := fun s =>
  if s = "apvset" then
    some ⟨"step_1_ap_et_distinction.txt", "AP vs ET Distinction",
      "Initial personality orientation assessment", some "personality"⟩
  else if s = "personality" then
    some ⟨"step_2_personality_types.txt", "Personality Types",
      "Detailed personality type assessment", some "energy"⟩
  else if s = "energy" then
    some ⟨"step_3_energy_questions.txt", "Energy Questions",
      "Energy and decision-making patterns", some "reinforcement"⟩
  else if s = "reinforcement" then
    some ⟨"step_4_reinforcement_childhood.txt", "Reinforcement Patterns",
      "Childhood experiences and reinforcement patterns", some "final"⟩
  else if s = "final" then
    some ⟨"step_5_final_code_reveal.txt", "Final Code Reveal",
      "Summary and personality code revelation", none⟩
  else none

/-- The Flask `session` dict, restricted to the keys the orchestrator
reads or writes.  An `Option` field is `none` when the key is absent. -/
structure SessionState where
  sessionId : Option String
  user : Option String
  stage : Option String
  history : List Msg
  assessmentData : List (String × String)
  language : Option String
  assessmentCompleted : Bool
deriving Repr, DecidableEq

/-- `session.clear()`: every key removed. -/
def clearedSession : SessionState :=
  { sessionId := none, user := none, stage := none, history := [],
    assessmentData := [], language := none, assessmentCompleted := false }

/-- Upsert into a Python dict modelled as an insertion-ordered association
list with unique keys: an existing key is updated in place, a new key is
appended (CPython dict semantics for `d[k] = v`). -/
def dictUpsert (d : List (String × String)) (k v : String) :
    List (String × String) :=
  if d.any (fun p => p.1 == k) then
    d.map (fun p => if p.1 == k then (k, v) else p)
  else d ++ [(k, v)]

/-- `d.get(k)` on the dict model: the value at the first (hence, with
unique keys, only) occurrence of `k`. -/
def dictGet? : List (String × String) → String → Option String
  | [], _ => none
  | p :: rest, k => if p.1 == k then some p.2 else dictGet? rest k

/-! ## Language detector (`detect_language`, `chat_service.py:147-159`)

The source computes `hebrew_count > len(text) * 0.2` with the Python float
`0.2`.  The IEEE-754 double nearest to `0.2` is `3602879701896397 / 2^54`,
which is strictly greater than `1/5`, so `len(text) * 0.2` always rounds
to a value `≥ len(text) / 5`, and it stays within one ulp of it; since
`hebrew_count` is an integer and the fractional part of a non-multiple of
5 divided by 5 is at least `1/5`, the float comparison agrees exactly with
the rational comparison `5 * hebrew_count > len(text)`, which is how it is
embedded here. -/

/-- Membership in the Hebrew Unicode block U+0590..U+05FF matched by the
regex in `detect_language`. -/
def isHebrewChar (c : Char) : Bool :=
  0x590 ≤ c.toNat && c.toNat ≤ 0x5FF

/-- `detect_language(text)`: `"he"` iff more than 20% of the characters
are in the Hebrew block, else `"en"`. -/
def detectLanguage (text : String) : String :=
  if 5 * text.data.countP isHebrewChar > text.data.length then "he" else "en"

/-! ## Stage store (`stage_service.py`) -/

/-- Result of `set_stage` (`stage_service.py:81-91`): the `(bool, str)`
tuple it returns, together with the session it may have written to. -/
structure SetStageResult where
  success : Bool
  message : String
  state : SessionState
deriving Repr, DecidableEq

/-- `set_stage(stage)` (`stage_service.py:81-91`): validates against the
registry; on an unknown id it returns `(False, msg)` without touching the
session, otherwise it writes `session['stage'] = stage` and returns
`(True, msg)`. -/
def setStage (s : SessionState) (stage : String) : SetStageResult :=
  match STAGES stage with
  | none =>
    { success := false
      message := "Invalid stage: " ++ stage ++
        ". Available stages: apvset, personality, energy, reinforcement, final"
      state := s }
  | some info =>
    { success := true
      message := "Stage set to: " ++ info.name
      state := { s with stage := some stage } }

/-- One element of the `stage_history` list written by
`save_assessment_results` (`stage_service.py:186-222`): a stage id, the
timestamp of its system turn, its user/assistant messages, and the
`completed_at` timestamp taken at save time. -/
structure StageBlock where
  stage : String
  startedAt : String
  messages : List Msg
  completedAt : String
deriving Repr, DecidableEq

/-- The JSON snapshot file written by `save_assessment_results`
(`stage_service.py:153-229`).  `filename` is the file it was written to;
`currentStage` models the `id` field of the `get_current_stage()` dict
stored under `current_stage` (the accompanying name/description/next
metadata is determined by `STAGES currentStage` and not duplicated
here). -/
structure Snapshot where
  filename : String
  sessionId : String
  userEmail : String
  username : String
  userName : String
  userId : String
  timestamp : String
  currentStage : String
  assessmentData : List (String × String)
  stageHistory : List StageBlock
deriving Repr, DecidableEq

/-- The `stage_history` fold of `save_assessment_results`
(`stage_service.py:186-222`): walk the history; each system turn closes
the previous block (if its stage tag was truthy and a block was open) and
opens a new one keyed by its own stage tag; user/assistant turns are
appended to the open block while the current tag is truthy.  `acc` is the
open `(started_at, messages)` pair (`none` models the initial empty
dict `{}`). -/
def stageHistoryFold (now : String) :
    List Msg → Option String → Option (String × List Msg) → List StageBlock
  | [], cur, acc =>
    match cur, acc with
    | some stg, some (st, ms) =>
      if stg != "" then [⟨stg, st, ms, now⟩] else []
    | _, _ => []
  | entry :: rest, cur, acc =>
    if entry.role == "system" then
      (match cur, acc with
       | some stg, some (st, ms) =>
         if stg != "" then
           ⟨stg, st, ms, now⟩ ::
             stageHistoryFold now rest entry.stageTag (some (entry.timestamp, []))
         else stageHistoryFold now rest entry.stageTag (some (entry.timestamp, []))
       | _, _ => stageHistoryFold now rest entry.stageTag (some (entry.timestamp, [])))
    else if entry.role == "user" || entry.role == "assistant" then
      (if truthyOpt cur then
        match acc with
        | some (st, ms) =>
          stageHistoryFold now rest cur
            (some (st, ms ++ [⟨entry.role, entry.content, entry.timestamp, none⟩]))
        | none =>
          stageHistoryFold now rest cur
            (some ("", [⟨entry.role, entry.content, entry.timestamp, none⟩]))
      else stageHistoryFold now rest cur acc)
    else stageHistoryFold now rest cur acc

/-- `stage_history` as computed from a full history. -/
def buildStageHistory (now : String) (history : List Msg) : List StageBlock :=
  stageHistoryFold now history none none

/-- `user_email.split('@')[0] if '@' in user_email else user_email`
(`stage_service.py:165`). -/
def usernameOf (userEmail : String) : String :=
  if pyContains userEmail "@" then (pySplit userEmail "@").headD userEmail
  else userEmail

/-- Result of `save_assessment_results`: the `(bool, str)` tuple plus the
assessment-results folder contents after the write. -/
structure SaveResult where
  success : Bool
  filepath : String
  files : List Snapshot
deriving Repr, DecidableEq

/-- `save_assessment_results()` (`stage_service.py:153-234`): builds the
snapshot from the session and writes it to
`assessment_<username>_<ts>.json` (NOTE: the filename is keyed by the
username, not the session id).  The results folder is modelled as the
list of files written so far, in creation order.  `now` is
`time.strftime("%Y-%m-%d %H:%M:%S")`, `ts` is
`time.strftime("%Y%m%d_%H%M%S")`.  The only modelled failure is the
`KeyError` that `get_current_stage()` raises inside the `try` block when
the session stage id is not in the registry. -/
def saveAssessmentResults (s : SessionState) (files : List Snapshot)
    (now ts : String) : SaveResult :=
  let sid := s.sessionId.getD "unknown"
  let userEmail := s.user.getD "unknown"
  let username := usernameOf userEmail
  let filename := "assessment_" ++ username ++ "_" ++ ts ++ ".json"
  match STAGES (s.stage.getD "apvset") with
  | none => { success := false, filepath := "KeyError", files := files }
  | some _ =>
    let snap : Snapshot :=
      { filename := filename
        sessionId := sid
        userEmail := userEmail
        username := username
        userName := "Unknown"
        userId := "unknown"
        timestamp := now
        currentStage := s.stage.getD "apvset"
        assessmentData := s.assessmentData
        stageHistory := buildStageHistory now s.history }
    { success := true, filepath := filename, files := files ++ [snap] }

/-- Result of `store_assessment_data`: the session after the upsert, the
results folder after the triggered save, and the bare `True` the function
returns (`stage_service.py:151`). -/
structure StoreResult where
  state : SessionState
  files : List Snapshot
  returned : Bool
deriving Repr, DecidableEq

/-- `store_assessment_data(key, value)` (`stage_service.py:141-151`):
upsert into `session['assessment_data']`, then save to file, then
`return True` (a single boolean, not a tuple). -/
def storeAssessmentData (s : SessionState) (files : List Snapshot)
    (now ts k v : String) : StoreResult :=
  let s' := { s with assessmentData := dictUpsert s.assessmentData k v }
  let save := saveAssessmentResults s' files now ts
  { state := s', files := save.files, returned := true }

/-- Code-point lexicographic `≤` on strings (Python string comparison). -/
def strLeB (a b : String) : Bool :=
  go a.data b.data
where go : List Char → List Char → Bool
  | [], _ => true
  | _ :: _, [] => false
  | c :: cs, d :: ds => c.toNat < d.toNat || (c == d && go cs ds)

/-- Stable insertion into a list sorted by `timestamp` descending. -/
def insertByTsDesc (x : Snapshot) : List Snapshot → List Snapshot
  | [] => [x]
  | h :: t =>
    if strLeB h.timestamp x.timestamp then x :: h :: t
    else h :: insertByTsDesc x t

/-- `sorted(results, key=lambda x: x['timestamp'], reverse=True)`. -/
def sortByTsDesc : List Snapshot → List Snapshot
  | [] => []
  | h :: t => insertByTsDesc h (sortByTsDesc t)

/-- `get_saved_assessment_results(session_id)`
(`stage_service.py:236-258`): keep the `.json` files whose name starts
with `assessment_<session_id>_` (no filter when the id argument is falsy),
sorted by snapshot timestamp, newest first. -/
def getSavedAssessmentResults (files : List Snapshot)
    (sessionId : Option String) : List Snapshot :=
  sortByTsDesc (files.filter fun f =>
    pyEnds f.filename ".json" &&
      (if truthyOpt sessionId then
        pyStarts f.filename ("assessment_" ++ sessionId.getD "" ++ "_")
      else true))

/-- `get_latest_assessment_result(session_id)`
(`stage_service.py:260-263`). -/
def getLatestAssessmentResult (files : List Snapshot)
    (sessionId : Option String) : Option Snapshot :=
  (getSavedAssessmentResults files sessionId).head?

/-! ## Chat service (`chat_service.py`)

String constants are transcribed byte-for-byte from the source file
(which stores its emoji as mojibake, hence the escaped characters). -/

/-- The mojibake warning-sign prefix shared by the error strings in
`chat_service.py` (lines 129, 144, 367). -/
def warnSign : String := "\u00e2\u0161\u00a0\u00ef\u00b8"

/-- The string returned by the outer exception handler of
`generate_response` (`chat_service.py:367`). -/
def fallbackMessage : String :=
  warnSign ++
    " **Error:** I encountered an issue processing your request. Please try again."

/-- Head of the formatting/language reminder concatenated onto the system
prompt (`chat_service.py:209`), up to the interpolated language code. -/
def reminderHead : String :=
  "\n\nRemember to format your response with proper Markdown, and clear structure. Use bold for emphasis, proper spacing. IMPORTANT: Always respond in the same language as the user\u0027s input ("

/-- Tail of the reminder of `chat_service.py:209`, after the language. -/
def reminderTail : String :=
  "). If the user writes in Hebrew, respond in Hebrew. If the user writes in English, respond in English."

/-- The full reminder for a detected language. -/
def reminderSuffix (lang : String) : String :=
  reminderHead ++ lang ++ reminderTail

/-- The label rendered for user turns in the `"review"` transcript
(`chat_service.py:110`, mojibake as in the source). -/
def userLabel : String := "\u00f0\u0178\u2018\u00a4 You"

/-- The label rendered for assistant turns in the `"review"` transcript
(`chat_service.py:110`). -/
def assistantLabel : String := "\u00f0\u0178\u00a4\u2013 Assistant"

/-- Transcript produced by the `"review"` command
(`chat_service.py:103-113`): header plus one block per non-system turn. -/
def reviewText (history : List Msg) : String :=
  history.foldl
    (fun acc m =>
      if m.role == "system" then acc
      else
        acc ++ "**" ++ (if m.role == "user" then userLabel else assistantLabel) ++
          "** (" ++ m.timestamp ++ "):\n" ++ m.content ++ "\n\n")
    "**Your Assessment Journey**\n\n"

/-- Guidance returned by `"save"` when a final report exists
(`chat_service.py:122-127`). -/
def saveGuidance : String :=
  "Your report has already been saved! You can find it in your assessment results folder.\n\nNeed anything else? You can:\n- Review your responses (type \"review\")\n- Exit to login page (type \"done\")\n- Or just ask me any questions about your results!"

/-- Warning returned by `"save"` when no final report exists
(`chat_service.py:129`). -/
def saveMissing : String :=
  warnSign ++
    " Sorry, I couldn\u0027t find your final report. You might need to complete the assessment first."

/-- `add_message_to_history(history, message, role)`
(`chat_service.py:370-387`): append a `{role, content, timestamp}` entry,
with a `stage` key equal to `session.get('stage')` on system turns. -/
def addMessageToHistory (s : SessionState) (message role now : String) :
    SessionState :=
  let entry : Msg :=
    { role := role, content := message, timestamp := now,
      stageTag := if role == "system" then s.stage else none }
  { s with history := s.history ++ [entry] }

/-- `handle_post_completion_action(user_message)`
(`chat_service.py:98-144`): dispatch on the lower-cased, stripped message;
`"done"` clears the whole session; an unrecognized message returns `None`
(modelled `none`) and the caller falls through to normal processing.
(The handler's own `except` branch is unreachable in the model: none of
the operations it performs can raise.) -/
def handlePostCompletionAction (s : SessionState) (userMessage : String) :
    Option String × SessionState :=
  let message := pyStrip (pyLower userMessage)
  if message == "review" then
    (some (reviewText s.history), s)
  else if message == "save" then
    if (dictGet? s.assessmentData "final_report").getD "" != "" then
      (some saveGuidance, s)
    else (some saveMissing, s)
  else if message == "done" then
    (some "REDIRECT_TO_LOGIN", clearedSession)
  else (none, s)

/-- The prompt templates, an external collaborator: `prompts stage` is the
content of the file `PROMPT_STAGES[stage]` read by the
`load_stage_prompt` defined in `chat_service.py:36-52` (the local
definition that shadows the one imported from `stage_service`). -/
structure Env where
  prompts : String → String

/-- `load_stage_prompt(stage="apvset")` (`chat_service.py:36-52`): raises
on a stage id outside `PROMPT_STAGES` (modelled `none`), otherwise
returns the template file contents.  Its default argument is the fixed
first stage `"apvset"`, not the session's current stage. -/
def loadStagePrompt (env : Env) (stage : String := "apvset") : Option String :=
  if stage == "apvset" || stage == "personality" || stage == "energy" ||
      stage == "reinforcement" || stage == "final" then
    some (env.prompts stage)
  else none

/-- The outgoing message list of `chat_service.py:211-232`: the system
prompt (from `load_stage_prompt()` — the default `"apvset"` template —
with the reminder concatenated), then the user/assistant entries of the
last 4 history entries (`history[-4:]`, taken after the current user turn
was appended), then the current user message once more. -/
def buildOutMessages (env : Env) (lang : String) (historyAfterUser : List Msg)
    (userMessage : String) : List (String × String) :=
  let systemContent := env.prompts "apvset" ++ reminderSuffix lang
  let recent := takeLast 4 historyAfterUser
  let window := (recent.filter fun m =>
    m.role == "user" || m.role == "assistant").map fun m => (m.role, m.content)
  ("system", systemContent) :: (window ++ [("user", userMessage)])

/-- The value returned by one `generate_response` turn: either visible
text or the redirect dict of `chat_service.py:306-310`. -/
inductive TurnResult where
  | text (message : String)
  | redirect (redirectUrl : String) (message : String)
deriving Repr, DecidableEq

/-- Everything observable after one turn: the returned value, the session,
the assessment-results folder, and the message lists sent to the model
provider during the turn. -/
structure TurnOutput where
  result : TurnResult
  state : SessionState
  files : List Snapshot
  calls : List (List (String × String))
deriving Repr, DecidableEq

/-- `session['language'] = user_language` guarded by
`'language' not in session` (`chat_service.py:171-173`). -/
def stickLanguage (s : SessionState) (lang : String) : SessionState :=
  match s.language with
  | none => { s with language := some lang }
  | some _ => s

/-- The body of `generate_response` from the stage lookup onward
(`chat_service.py:181-362`), reached when the completed-state handler did
not short-circuit.  `s2` already carries the sticky language.

Control flow traced from the source:

* `STAGES[current_stage]` raises `KeyError` on an unknown id, which the
  outer `except` turns into the fallback text (no provider call is made).
* If the history is empty, `initialize_history` appends a system turn
  whose content is `load_stage_prompt()` — the *default* `"apvset"`
  template — tagged with the session's current stage.
* The user turn is appended, the outgoing message list is built
  (`buildOutMessages`) and the provider is called; a raised provider
  error reaches the outer `except`, which returns the fallback text and
  leaves every mutation made so far (language, appended turns) in place.
* On a reply containing `ADVANCE_STAGE` at a stage whose `next` is
  truthy, `chat_service.py:268` executes
  `success_save, filepath = store_assessment_data("stage_complete", current_stage)`.
  `store_assessment_data` performs its dict upsert and its file save and
  then returns the bare boolean `True` (`stage_service.py:151`), so the
  tuple unpacking raises `TypeError: cannot unpack non-iterable bool` —
  after the fact is stored but before `set_stage` runs.  The outer
  `except` returns the fallback text.  Consequently the whole
  advancement block — `set_stage`, the final-report second call with
  `mark`-style completion, the redirect return, and the kickoff second
  call (`chat_service.py:274-359`) — is unreachable, and at most one
  provider call happens per turn. -/
def normalFlow (env : Env) (s2 : SessionState) (files0 : List Snapshot)
    (replies : List (Option String)) (userMessage lang now ts : String) :
    TurnOutput :=
  let currentStage := s2.stage.getD "apvset"
  match STAGES currentStage with
  | none => ⟨.text fallbackMessage, s2, files0, []⟩
  | some info =>
    match loadStagePrompt env with
    | none => ⟨.text fallbackMessage, s2, files0, []⟩
    | some initPrompt =>
      let s3 := if s2.history.isEmpty then
        addMessageToHistory s2 initPrompt "system" now else s2
      let s4 := addMessageToHistory s3 userMessage "user" now
      let messages := buildOutMessages env lang s4.history userMessage
      match replies.headD none with
      | none => ⟨.text fallbackMessage, s4, files0, [messages]⟩
      | some raw =>
        let botReply0 := pyStrip raw
        if pyContains botReply0 "ADVANCE_STAGE" then
          let botReply := pyStrip (pyReplace botReply0 "ADVANCE_STAGE" "")
          let s5 := addMessageToHistory s4 botReply "assistant" now
          if truthyOpt info.next then
            let store := storeAssessmentData s5 files0 now ts
              "stage_complete" currentStage
            -- `success_save, filepath = <True>` raises TypeError here
            ⟨.text fallbackMessage, store.state, store.files, [messages]⟩
          else
            ⟨.text botReply, s5, files0, [messages]⟩
        else
          let s5 := addMessageToHistory s4 botReply0 "assistant" now
          ⟨.text botReply0, s5, files0, [messages]⟩

/-- One turn of `generate_response(user_message, stage=None)`
(`chat_service.py:162-367`).  The `stage` parameter of the source is
accepted from the route but never read, so it is not modelled.  `replies`
is the queue of pending provider outcomes (`none` = the client raises),
consumed one per provider call; `now`/`ts` are the `time.strftime`
outputs for this turn. -/
def generateResponse (env : Env) (s0 : SessionState) (files0 : List Snapshot)
    (replies : List (Option String)) (userMessage now ts : String) :
    TurnOutput :=
  let lang := detectLanguage userMessage
  let s1 := stickLanguage s0 lang
  if s1.assessmentCompleted then
    match handlePostCompletionAction s1 userMessage with
    | (some resp, s2) => ⟨.text resp, s2, files0, []⟩
    | (none, s2) => normalFlow env s2 files0 replies userMessage lang now ts
  else
    normalFlow env s1 files0 replies userMessage lang now ts

/-! ## Concrete fixtures used by the evaluation theorems -/

/-- A concrete template store whose template for stage `st` is the string
`"TPL:" ++ st`, so distinct stages have distinct templates. -/
def demoEnv : Env := ⟨fun st => "TPL:" ++ st⟩

/-- A fresh session as produced by `get_session_id` plus
`initialize_session_state`: first stage, empty history, empty facts, no
language, not completed. -/
def freshSession : SessionState :=
  { sessionId := some "s1", user := some "alice@example.com",
    stage := some "apvset", history := [], assessmentData := [],
    language := none, assessmentCompleted := false }

/-- A session sitting at `"reinforcement"`, the stage immediately before
the terminal `"final"` stage, with some prior history. -/
def reinfSession : SessionState :=
  { freshSession with
    stage := some "reinforcement"
    language := some "en"
    history := [⟨"system", "TPL:reinforcement", "T0", some "reinforcement"⟩,
      ⟨"user", "earlier answer", "T0", none⟩] }

/-- A session sitting at the `"personality"` stage with empty history. -/
def personalitySession : SessionState :=
  { freshSession with
    stage := some "personality"
    language := some "en" }

/-! ## Helper lemmas -/

theorem addMessageToHistory_stage (s : SessionState) (m r n : String) :
    (addMessageToHistory s m r n).stage = s.stage := rfl

theorem addMessageToHistory_language (s : SessionState) (m r n : String) :
    (addMessageToHistory s m r n).language = s.language := rfl

theorem addMessageToHistory_data (s : SessionState) (m r n : String) :
    (addMessageToHistory s m r n).assessmentData = s.assessmentData := rfl

theorem addMessageToHistory_completed (s : SessionState) (m r n : String) :
    (addMessageToHistory s m r n).assessmentCompleted = s.assessmentCompleted := rfl

theorem storeAssessmentData_state (s : SessionState) (files : List Snapshot)
    (now ts k v : String) :
    (storeAssessmentData s files now ts k v).state =
      { s with assessmentData := dictUpsert s.assessmentData k v } := rfl

theorem stickLanguage_stage (s : SessionState) (l : String) :
    (stickLanguage s l).stage = s.stage := by
  cases h : s.language <;> simp [stickLanguage, h]

theorem stickLanguage_history (s : SessionState) (l : String) :
    (stickLanguage s l).history = s.history := by
  cases h : s.language <;> simp [stickLanguage, h]

theorem stickLanguage_data (s : SessionState) (l : String) :
    (stickLanguage s l).assessmentData = s.assessmentData := by
  cases h : s.language <;> simp [stickLanguage, h]

theorem stickLanguage_completed (s : SessionState) (l : String) :
    (stickLanguage s l).assessmentCompleted = s.assessmentCompleted := by
  cases h : s.language <;> simp [stickLanguage, h]

theorem loadStagePrompt_default (env : Env) :
    loadStagePrompt env = some (env.prompts "apvset") := rfl

/-- In every branch of `normalFlow`, stage, language and completion flag
of the session are left unchanged, and the assessment dict is either
unchanged or upserted exactly at the key `"stage_complete"`. -/
theorem normalFlow_state_invariants (env : Env) (s2 : SessionState)
    (files0 : List Snapshot) (replies : List (Option String))
    (userMessage lang now ts : String) :
    (normalFlow env s2 files0 replies userMessage lang now ts).state.stage = s2.stage ∧
    (normalFlow env s2 files0 replies userMessage lang now ts).state.language = s2.language ∧
    (normalFlow env s2 files0 replies userMessage lang now ts).state.assessmentCompleted =
      s2.assessmentCompleted ∧
    ((normalFlow env s2 files0 replies userMessage lang now ts).state.assessmentData =
        s2.assessmentData ∨
      (normalFlow env s2 files0 replies userMessage lang now ts).state.assessmentData =
        dictUpsert s2.assessmentData "stage_complete" (s2.stage.getD "apvset")) := by
  simp only [normalFlow, loadStagePrompt_default]
  repeat' split
  all_goals
    refine ⟨by simp [addMessageToHistory, storeAssessmentData_state],
      by simp [addMessageToHistory, storeAssessmentData_state],
      by simp [addMessageToHistory, storeAssessmentData_state], ?_⟩
  all_goals
    first
      | (left; simp [addMessageToHistory, storeAssessmentData_state]; done)
      | (right; simp [addMessageToHistory, storeAssessmentData_state]; done)

theorem dictGet?_map_update (d : List (String × String)) (k k' v : String)
    (h : ¬ k = k') :
    dictGet? (d.map fun p => if p.1 == k' then (k', v) else p) k = dictGet? d k := by
  have h' : ¬ k' = k := fun e => h e.symm
  induction d with
  | nil => rfl
  | cons p rest ih =>
    by_cases hp : p.1 = k'
    · simp [dictGet?, hp, h'] at ih ⊢
      exact ih
    · by_cases hk : p.1 = k
      · simp [dictGet?, hp, hk, h] at ih ⊢
      · simp [dictGet?, hp, hk] at ih ⊢
        exact ih

theorem dictGet?_append_ne (d : List (String × String)) (k k' v : String)
    (h : ¬ k = k') :
    dictGet? (d ++ [(k', v)]) k = dictGet? d k := by
  have h' : ¬ k' = k := fun e => h e.symm
  induction d with
  | nil => simp [dictGet?, h']
  | cons p rest ih =>
    by_cases hk : p.1 = k
    · simp [dictGet?, hk]
    · simp [dictGet?, hk] at ih ⊢
      exact ih

theorem dictGet?_upsert_ne (d : List (String × String)) (k k' v : String)
    (h : ¬ k = k') :
    dictGet? (dictUpsert d k' v) k = dictGet? d k := by
  unfold dictUpsert
  split
  · exact dictGet?_map_update d k k' v h
  · exact dictGet?_append_ne d k k' v h

/-! ## Claim theorems -/

/-- C8: `detect_language` returns `"he"` exactly when the number of code
points in the Hebrew Unicode block exceeds 20% of the number of characters
of the input, and `"en"` otherwise; in particular the Hebrew sentence of
Scenario C yields `"he"` and `"tell me more"` yields `"en"`.  The function
is a pure Lean function of its input, hence deterministic. -/
theorem c8_detect_language_spec :
    (∀ t : String,
      (detectLanguage t = "he" ↔ 5 * t.data.countP isHebrewChar > t.data.length) ∧
      (detectLanguage t = "en" ↔ 5 * t.data.countP isHebrewChar ≤ t.data.length)) ∧
    detectLanguage "אני רוצה לדעת עוד" = "he" ∧
    detectLanguage "tell me more" = "en" := by
  refine ⟨fun t => ?_, by decide, by decide⟩
  unfold detectLanguage
  by_cases h : 5 * t.data.countP isHebrewChar > t.data.length
  · simp [h, Nat.not_le.mpr h]
  · simp [h, Nat.not_lt.mp h]

/-- C10: `set_stage` on an id missing from the registry reports failure
and leaves the session untouched; on a registry id it reports success and
the session's stage afterwards is exactly that id. -/
theorem c10_set_stage_spec (s : SessionState) (stage : String) :
    (STAGES stage = none →
      (setStage s stage).success = false ∧ (setStage s stage).state = s) ∧
    (∀ info, STAGES stage = some info →
      (setStage s stage).success = true ∧
        (setStage s stage).state.stage = some stage) := by
  constructor
  · intro h
    simp [setStage, h]
  · intro info h
    simp [setStage, h]

/-- Witness for C10 at the concrete ids `"bogus"` (absent from the
registry) and `"energy"` (present). -/
theorem c10_set_stage_spec_witness :
    ((setStage freshSession "bogus").success = false ∧
      (setStage freshSession "bogus").state = freshSession) ∧
    ((setStage freshSession "energy").success = true ∧
      (setStage freshSession "energy").state.stage = some "energy") :=
  ⟨(c10_set_stage_spec freshSession "bogus").1 (by decide),
    (c10_set_stage_spec freshSession "energy").2
      ⟨"step_3_energy_questions.txt", "Energy Questions",
        "Energy and decision-making patterns", some "reinforcement"⟩ (by decide)⟩

/-- C7: on any turn from a reachable session (the completed flag is never
set by any code path, so reachable sessions have it `false`), an already
set language is preserved unchanged, and an unset language is set to the
detected language of the processed user message. -/
theorem c7_language_sticky (env : Env) (s : SessionState) (files : List Snapshot)
    (replies : List (Option String)) (msg now ts : String)
    (h : s.assessmentCompleted = false) :
    (∀ l, s.language = some l →
      (generateResponse env s files replies msg now ts).state.language = some l) ∧
    (s.language = none →
      (generateResponse env s files replies msg now ts).state.language =
        some (detectLanguage msg)) := by
  have hc : (stickLanguage s (detectLanguage msg)).assessmentCompleted = false := by
    rw [stickLanguage_completed, h]
  have hinv := (normalFlow_state_invariants env (stickLanguage s (detectLanguage msg))
    files replies msg (detectLanguage msg) now ts).2.1
  constructor
  · intro l hl
    simp only [generateResponse, hc, Bool.false_eq_true, if_false]
    rw [hinv]
    simp [stickLanguage, hl]
  · intro hl
    simp only [generateResponse, hc, Bool.false_eq_true, if_false]
    rw [hinv]
    simp [stickLanguage, hl]

/-- Witness for C7: a first turn on a fresh session sets the language to
the detected language of that message; a session whose language is
already `"en"` keeps it across a further turn. -/
theorem c7_language_sticky_witness :
    (generateResponse demoEnv freshSession [] [some "ok"] "hi" "T1" "TS1").state.language =
      some (detectLanguage "hi") ∧
    (generateResponse demoEnv
      { freshSession with language := some "en" } [] [some "ok"]
        "אני רוצה לדעת עוד" "T1" "TS1").state.language = some "en" :=
  ⟨(c7_language_sticky demoEnv freshSession [] [some "ok"] "hi" "T1" "TS1" rfl).2 rfl,
    (c7_language_sticky demoEnv { freshSession with language := some "en" } []
      [some "ok"] "אני רוצה לדעת עוד" "T1" "TS1" rfl).1 "en" rfl⟩

/-- C6: when the provider call of a turn fails (`none` at the head of the
pending outcomes), the turn returns the fallback string of
`chat_service.py:367`, the session's stage is exactly what it was before
the turn, and the history after the turn is the prior history (plus the
initial system turn when it was empty) with the new user turn as its last
entry — so the user turn remains with no assistant turn after it.  (The
fallback string is the fixed text the spec calls the "safe, localized
fallback"; it is the same constant for both languages.) -/
theorem c6_provider_failure_safe (env : Env) (s : SessionState)
    (files : List Snapshot) (rest : List (Option String)) (msg now ts : String)
    (h : s.assessmentCompleted = false)
    (info : StageInfo) (hinfo : STAGES (s.stage.getD "apvset") = some info) :
    (generateResponse env s files (none :: rest) msg now ts).result =
      .text fallbackMessage ∧
    (generateResponse env s files (none :: rest) msg now ts).state.stage = s.stage ∧
    (generateResponse env s files (none :: rest) msg now ts).state.history =
      (if s.history = [] then
        s.history ++ [⟨"system", env.prompts "apvset", now, s.stage⟩]
      else s.history) ++ [⟨"user", msg, now, none⟩] := by
  have hc : (stickLanguage s (detectLanguage msg)).assessmentCompleted = false := by
    rw [stickLanguage_completed, h]
  have hst : STAGES ((stickLanguage s (detectLanguage msg)).stage.getD "apvset") =
      some info := by rw [stickLanguage_stage]; exact hinfo
  simp only [generateResponse, hc, Bool.false_eq_true, if_false]
  simp only [normalFlow, loadStagePrompt_default, hst, List.headD_cons]
  refine ⟨trivial, ?_, ?_⟩
  · simp only [addMessageToHistory]
    split <;> simp [stickLanguage_stage]
  · simp only [addMessageToHistory]
    split <;> simp_all [stickLanguage_history, stickLanguage_stage]

/-- Witness for C6 at a fresh session whose only pending provider outcome
is a failure. -/
theorem c6_provider_failure_safe_witness :
    (generateResponse demoEnv freshSession [] [none] "hi" "T1" "TS1").result =
      .text fallbackMessage ∧
    (generateResponse demoEnv freshSession [] [none] "hi" "T1" "TS1").state.stage =
      some "apvset" ∧
    (generateResponse demoEnv freshSession [] [none] "hi" "T1" "TS1").state.history =
      [⟨"system", "TPL:apvset", "T1", some "apvset"⟩, ⟨"user", "hi", "T1", none⟩] := by
  have hmain := c6_provider_failure_safe demoEnv freshSession [] [] "hi" "T1" "TS1" rfl
    ⟨"step_1_ap_et_distinction.txt", "AP vs ET Distinction",
      "Initial personality orientation assessment", some "personality"⟩ (by decide)
  refine ⟨hmain.1, ?_, ?_⟩
  · rw [hmain.2.1]
    rfl
  · rw [hmain.2.2]
    decide

/-- C3 counterexample: `generate_response` contains no `STORE_DATA:`
scanning at all (no code in the repository does).  A model reply holding
two `STORE_DATA:` lines with distinct keys leaves the assessment dict
empty — neither key is present after the turn, contradicting the claim —
and the lines are returned verbatim in the visible reply. -/
theorem c3_store_data_counterexample :
    (generateResponse demoEnv freshSession []
      [some "STORE_DATA:color=blue\nSTORE_DATA:animal=cat\nNoted."]
      "hello" "T1" "TS1").state.assessmentData = [] ∧
    dictGet? (generateResponse demoEnv freshSession []
      [some "STORE_DATA:color=blue\nSTORE_DATA:animal=cat\nNoted."]
      "hello" "T1" "TS1").state.assessmentData "color" = none ∧
    dictGet? (generateResponse demoEnv freshSession []
      [some "STORE_DATA:color=blue\nSTORE_DATA:animal=cat\nNoted."]
      "hello" "T1" "TS1").state.assessmentData "animal" = none ∧
    (generateResponse demoEnv freshSession []
      [some "STORE_DATA:color=blue\nSTORE_DATA:animal=cat\nNoted."]
      "hello" "T1" "TS1").result =
        .text "STORE_DATA:color=blue\nSTORE_DATA:animal=cat\nNoted." := by
  refine ⟨by decide, by decide, by decide, by decide⟩

/-- C3 amended: the model reply is never parsed for `STORE_DATA:` lines
and no reply-derived key is ever stored: after any turn on a reachable
(non-completed) session, every assessment key other than
`"stage_complete"` — the only key the turn can write — holds exactly the
value it held before the turn. -/
theorem c3_amended_no_reply_derived_keys (env : Env) (s : SessionState)
    (files : List Snapshot) (replies : List (Option String))
    (msg now ts k : String)
    (h : s.assessmentCompleted = false) (hk : ¬ k = "stage_complete") :
    dictGet? (generateResponse env s files replies msg now ts).state.assessmentData k =
      dictGet? s.assessmentData k := by
  have hc : (stickLanguage s (detectLanguage msg)).assessmentCompleted = false := by
    rw [stickLanguage_completed, h]
  have hinv := (normalFlow_state_invariants env (stickLanguage s (detectLanguage msg))
    files replies msg (detectLanguage msg) now ts).2.2.2
  simp only [generateResponse, hc, Bool.false_eq_true, if_false]
  rcases hinv with hd | hd
  · rw [hd, stickLanguage_data]
  · rw [hd, stickLanguage_data, stickLanguage_stage]
    exact dictGet?_upsert_ne _ _ _ _ hk

/-- Witness for the amended C3: a reply that even requests an advance
while carrying a `STORE_DATA:` line still leaves the key `"color"`
unset. -/
theorem c3_amended_witness :
    dictGet? (generateResponse demoEnv freshSession []
      [some "STORE_DATA:color=blue ADVANCE_STAGE"] "hello" "T1" "TS1").state.assessmentData
      "color" = none :=
  (c3_amended_no_reply_derived_keys demoEnv freshSession []
    [some "STORE_DATA:color=blue ADVANCE_STAGE"] "hello" "T1" "TS1" "color"
    rfl (by decide)).trans (by decide)

/-- Decomposition of the outgoing message list: with a history that ends
in the just-appended user turn, `history[-4:]` is the last 3 earlier
entries plus that user turn, the role filter keeps the user turn, and the
user message is then appended once more — so the list ends with the user
message twice. -/
theorem buildOutMessages_decomp (env : Env) (lang : String) (l : List Msg)
    (msg now : String) (tag : Option String) :
    buildOutMessages env lang (l ++ [⟨"user", msg, now, tag⟩]) msg =
      ("system", env.prompts "apvset" ++ reminderSuffix lang) ::
        (((takeLast 3 l).filter fun m => m.role == "user" || m.role == "assistant").map
          (fun m => (m.role, m.content)) ++ [("user", msg), ("user", msg)]) := by
  unfold buildOutMessages takeLast
  rw [List.drop_append_eq_append_drop]
  have h1 : (l ++ [(⟨"user", msg, now, tag⟩ : Msg)]).length - 4 = l.length - 3 := by
    simp
  have h2 : l.length - 3 - l.length = 0 := by omega
  rw [h1, h2]
  simp [List.filter_append]

/-- On a turn from a reachable session whose stage id is in the registry,
exactly one provider call is made, and its message list is
`buildOutMessages` applied to the history after the (possible) initial
system turn and the user-turn append. -/
theorem generateResponse_user_call (env : Env) (s : SessionState)
    (files : List Snapshot) (replies : List (Option String)) (msg now ts : String)
    (h : s.assessmentCompleted = false)
    (info : StageInfo) (hinfo : STAGES (s.stage.getD "apvset") = some info) :
    (generateResponse env s files replies msg now ts).calls =
      [buildOutMessages env (detectLanguage msg)
        ((if s.history = [] then
            s.history ++ [⟨"system", env.prompts "apvset", now, s.stage⟩]
          else s.history) ++ [⟨"user", msg, now, none⟩]) msg] := by
  have hc : (stickLanguage s (detectLanguage msg)).assessmentCompleted = false := by
    rw [stickLanguage_completed, h]
  have hst : STAGES ((stickLanguage s (detectLanguage msg)).stage.getD "apvset") =
      some info := by rw [stickLanguage_stage]; exact hinfo
  simp only [generateResponse, hc, Bool.false_eq_true, if_false]
  simp only [normalFlow, loadStagePrompt_default, hst]
  repeat' split
  all_goals
    simp_all [addMessageToHistory, stickLanguage_history, stickLanguage_stage]

/-- C5 counterexample: on a concrete turn the message list sent to the
provider contains the current user message twice (it sits inside the
`history[-4:]` window, which is taken after the user turn is appended, and
is then appended again), and the final element of the list is that user
message — not a system instruction. -/
theorem c5_duplicate_user_message_counterexample :
    ((generateResponse demoEnv freshSession [] [some "ok"] "hello" "T1" "TS1").calls.headD
      []).count ("user", "hello") = 2 ∧
    ((generateResponse demoEnv freshSession [] [some "ok"] "hello" "T1" "TS1").calls.headD
      []).getLast? = some ("user", "hello") := by
  refine ⟨by decide, by decide⟩

/-- C5 amended: the outgoing message list is one system message — the
(fixed first-stage) template with the reformatting/language reminder
concatenated into it, not a separate final instruction — followed by the
user/assistant entries of the last 3 prior history entries in
chronological order, the current user message (from the window, which is
taken after the user turn is appended), and the current user message a
second time. -/
theorem c5_amended_message_list_shape (env : Env) (s : SessionState)
    (files : List Snapshot) (replies : List (Option String)) (msg now ts : String)
    (h : s.assessmentCompleted = false)
    (info : StageInfo) (hinfo : STAGES (s.stage.getD "apvset") = some info) :
    (generateResponse env s files replies msg now ts).calls =
      [("system", env.prompts "apvset" ++ reminderSuffix (detectLanguage msg)) ::
        (((takeLast 3 (if s.history = [] then
              s.history ++ [⟨"system", env.prompts "apvset", now, s.stage⟩]
            else s.history)).filter fun m =>
              m.role == "user" || m.role == "assistant").map
          (fun m => (m.role, m.content)) ++ [("user", msg), ("user", msg)])] := by
  rw [generateResponse_user_call env s files replies msg now ts h info hinfo,
    buildOutMessages_decomp]

/-- Witness for the amended C5 on a fresh session: the single provider
call is the system prompt followed by the user message twice. -/
theorem c5_amended_witness :
    (generateResponse demoEnv freshSession [] [some "ok"] "hello" "T1" "TS1").calls =
      [[("system", "TPL:apvset" ++ reminderSuffix "en"),
        ("user", "hello"), ("user", "hello")]] :=
  (c5_amended_message_list_shape demoEnv freshSession [] [some "ok"] "hello" "T1" "TS1"
    rfl ⟨"step_1_ap_et_distinction.txt", "AP vs ET Distinction",
      "Initial personality orientation assessment", some "personality"⟩
    (by decide)).trans (by decide)

/-- C1: Scenario A evaluated on the embedding.  On a fresh session at
`"apvset"` with reply `"Welcome. ADVANCE_STAGE"`, the marker is stripped
from the assistant turn and the `stage_complete` fact for `"apvset"` is
stored and persisted to the snapshot — but the session's stage is still
`"apvset"` afterwards, and the returned text is the error fallback: the
tuple unpacking at `chat_service.py:268` of the bare boolean returned by
`store_assessment_data` (`stage_service.py:151`) raises `TypeError`
before `set_stage` can run, so the advancement the claim describes never
happens. -/
theorem c1_advance_stage_crash :
    (generateResponse demoEnv freshSession [] [some "Welcome. ADVANCE_STAGE"]
      "yes" "T1" "TS1").state.history.map (fun m => (m.role, m.content)) =
        [("system", "TPL:apvset"), ("user", "yes"), ("assistant", "Welcome.")] ∧
    dictGet? (generateResponse demoEnv freshSession [] [some "Welcome. ADVANCE_STAGE"]
      "yes" "T1" "TS1").state.assessmentData "stage_complete" = some "apvset" ∧
    ((generateResponse demoEnv freshSession [] [some "Welcome. ADVANCE_STAGE"]
      "yes" "T1" "TS1").files.map fun f => (f.filename, f.assessmentData)) =
        [("assessment_alice_TS1.json", [("stage_complete", "apvset")])] ∧
    (generateResponse demoEnv freshSession [] [some "Welcome. ADVANCE_STAGE"]
      "yes" "T1" "TS1").state.stage = some "apvset" ∧
    (generateResponse demoEnv freshSession [] [some "Welcome. ADVANCE_STAGE"]
      "yes" "T1" "TS1").result = .text fallbackMessage := by
  refine ⟨by decide, by decide, by decide, by decide, by decide⟩

/-- C2: Scenario B evaluated on the embedding.  At the stage immediately
preceding the terminal stage, a reply of `"ADVANCE_STAGE"` produces the
fallback text (not a redirect), no second provider call (one call total),
no `final_report` fact, `completed` still false, and an unchanged stage:
the `TypeError` at `chat_service.py:268` aborts the turn before the
terminal flow of `chat_service.py:280-310`, which is therefore
unreachable (and no code anywhere sets `assessment_completed`). -/
theorem c2_terminal_flow_unreachable :
    (generateResponse demoEnv reinfSession [] [some "ADVANCE_STAGE", some "FINAL REPORT"]
      "my answer" "T1" "TS1").result = .text fallbackMessage ∧
    (generateResponse demoEnv reinfSession [] [some "ADVANCE_STAGE", some "FINAL REPORT"]
      "my answer" "T1" "TS1").state.assessmentCompleted = false ∧
    dictGet? (generateResponse demoEnv reinfSession [] [some "ADVANCE_STAGE", some "FINAL REPORT"]
      "my answer" "T1" "TS1").state.assessmentData "final_report" = none ∧
    (generateResponse demoEnv reinfSession [] [some "ADVANCE_STAGE", some "FINAL REPORT"]
      "my answer" "T1" "TS1").calls.length = 1 ∧
    (generateResponse demoEnv reinfSession [] [some "ADVANCE_STAGE", some "FINAL REPORT"]
      "my answer" "T1" "TS1").state.stage = some "reinforcement" := by
  refine ⟨by decide, by decide, by decide, by decide, by decide⟩

/-- C4: on a session at stage `"personality"` with empty history, both the
system prompt at the head of the outgoing message list and the system turn
appended to history are built from the `"apvset"` template (the local
`load_stage_prompt` of `chat_service.py:36` is called with no argument at
lines 208 and 397, so its fixed default is used), even though the system
turn is stage-tagged `"personality"`; the current stage's template
`"TPL:personality"` is different and is not used. -/
theorem c4_system_prompt_fixed_stage :
    ((generateResponse demoEnv personalitySession [] [some "ok"] "hello" "T1" "TS1").calls.headD
      []).head? = some ("system", demoEnv.prompts "apvset" ++ reminderSuffix "en") ∧
    (generateResponse demoEnv personalitySession [] [some "ok"] "hello" "T1"
      "TS1").state.history.head? =
        some ⟨"system", "TPL:apvset", "T1", some "personality"⟩ ∧
    demoEnv.prompts "personality" = "TPL:personality" := by
  refine ⟨by decide, by decide, by decide⟩

/-- C9: after facts are written through `store_assessment_data` (which
triggers `save_assessment_results`), the snapshot on disk is named by the
*username* (`assessment_alice_TS1.json`), while
`get_saved_assessment_results` filters filenames by
`assessment_<session_id>_`; reloading by the session id `"s1"` therefore
finds nothing, although the snapshot itself (found when no id filter is
applied) carries exactly the in-session facts. -/
theorem c9_snapshot_reload_by_session_id_fails :
    ((storeAssessmentData freshSession [] "T1" "TS1" "color" "blue").files.map
      Snapshot.filename) = ["assessment_alice_TS1.json"] ∧
    getLatestAssessmentResult
      (storeAssessmentData freshSession [] "T1" "TS1" "color" "blue").files
      (some "s1") = none ∧
    (getLatestAssessmentResult
      (storeAssessmentData freshSession [] "T1" "TS1" "color" "blue").files
      none).map Snapshot.assessmentData = some [("color", "blue")] := by
  refine ⟨by decide, by decide, by decide⟩

end ChatBot
